import Mathlib

/-!
# ElectroGalindez desktop launcher (`main.js`)

A shallow embedding of the Electron main script: the path resolution of the
bundled executable, the readiness loop `waitForStreamlit`, the window creation
`createWindow`, the shutdown routine `cleanupAndExit` and the application
lifecycle handlers.

The script is event driven.  Every callback of the script is a function on an
explicit state; the runtime (timers, HTTP requests, child processes, Electron
lifecycle) is the source of a list of time-stamped events that are delivered to
those callbacks one at a time, as the single-threaded event loop does.

What is assumed of the runtime, all of it documented behaviour of Node and Electron:

* timers of equal delay fire in the order in which they were set, none before its
  delay has passed;
* a request delivers its response or its timeout only while it is in flight; a
  request destroyed before its response emits its `error` event (socket hang up);
* `subprocess.kill` sets `killed` when it has delivered the signal, and delivers
  nothing to a process that has ended;
* `app.whenReady()` resolves once.

Times are `Date.now()` values in milliseconds.  `now - start` is the truncated
subtraction of `Nat`; it agrees with the script on every comparison made, since a
negative difference and `0` are both below `MAX_WAIT_MS`.
-/

namespace ElectroGalindez

/-! ## Constants (main.js, lines 7-9 and line 69) -/

def STREAMLIT_URL : String := "http://localhost:8501"

def MAX_WAIT_MS : Nat := 30000

def POLL_INTERVAL_MS : Nat := 500

/-- The literal `2_000` passed to `req.setTimeout` (line 69). -/
def PROBE_TIMEOUT_MS : Nat := 2000

/-! ## Logging (lines 14-23) -/

/-- One line written to the console: `out` by `console.log`, `err` by `console.error`. -/
inductive LogLine where
  | out (text : String)
  | err (text : String)
  deriving DecidableEq, Repr

/-- `logInfo(message)`. -/
def logInfo (message : String) (log : List LogLine) : List LogLine :=
  log ++ [LogLine.out ("[ElectroGalindez] " ++ message)]

/-- `logError(message, error)`: the message, then the error object when there is one. -/
def logError (message : String) (error : Option String) (log : List LogLine) : List LogLine :=
  let log := log ++ [LogLine.err ("[ElectroGalindez] " ++ message)]
  match error with
  | some e => log ++ [LogLine.err e]
  | none => log

/-! ## Path resolution (lines 25-33) -/

/-- What `resolveExecutablePath` reads from its surroundings: `process.platform`,
`app.isPackaged`, `process.resourcesPath`, `__dirname`, `fs.existsSync` and `path.join`. -/
structure Env where
  platform : String
  isPackaged : Bool
  resourcesPath : String
  dirname : String
  existsSync : String → Bool
  join : List String → String

/-- The `executableName` of line 26. -/
def executableName (platform : String) : String :=
  if platform = "win32" then "ElectroGalindez.exe" else "ElectroGalindez"

/-- `resolveExecutablePath()`. -/
def resolveExecutablePath (env : Env) : String :=
  let executableName := executableName env.platform
  let resourcePath := if env.isPackaged then env.resourcesPath else env.dirname
  let distPath := env.join [resourcePath, "dist", executableName]
  if env.existsSync distPath then distPath
  else env.join [env.dirname, "dist", executableName]

/-! ## The readiness loop (lines 53-85) -/

/-- State of the promise returned by `waitForStreamlit`.  A promise settles once:
`resolve` and `reject` on a settled promise do nothing. -/
inductive Settled where
  | pending
  | resolved
  | rejected (message : String)
  deriving DecidableEq, Repr

/-- Where one `http.get` request stands, as the runtime sees it.
`destroyed` is a request destroyed by the timeout callback before any response:
Node then still emits the request's `error` event (socket hang up). -/
inductive ReqState where
  | inFlight
  | responded
  | failed
  | destroyed
  deriving DecidableEq, Repr

/-- One call of `http.get`: when it was issued, when the timer that issued it was
set (`none` for the first, direct call of `attempt`), and its request state. -/
structure Probe where
  startedAt : Nat
  scheduledAt : Option Nat
  state : ReqState
  deriving DecidableEq, Repr

/-- The closure state of one `waitForStreamlit` call: `start`, the promise, the
requests issued so far (index = request number), the pending
`setTimeout(attempt, POLL_INTERVAL_MS)` timers (each by the time it was set, oldest
first) and the number of calls of `retry` so far. -/
structure WaitState where
  start : Nat
  promise : Settled
  probes : List Probe
  timers : List Nat
  retryCalls : Nat
  deriving DecidableEq, Repr

/-- The message of the error built on line 77. -/
def timeoutMessage : String :=
  "Timeout esperando a Streamlit (" ++ toString MAX_WAIT_MS ++ "ms)."

/-- `resolve()`. -/
def resolve (s : WaitState) : WaitState :=
  match s.promise with
  | .pending => { s with promise := .resolved }
  | _ => s

/-- `reject(new Error(message))`. -/
def reject (message : String) (s : WaitState) : WaitState :=
  match s.promise with
  | .pending => { s with promise := .rejected message }
  | _ => s

/-- The `retry` closure (lines 75-81), run when `Date.now()` is `now`. -/
def waitForStreamlit.retry (now : Nat) (s : WaitState) : WaitState :=
  let s := { s with retryCalls := s.retryCalls + 1 }
  if now - s.start ≥ MAX_WAIT_MS then
    reject timeoutMessage s
  else
    { s with timers := s.timers ++ [now] }

/-- The `attempt` closure (lines 58-73): issues one `http.get` and registers the
response, `error` and timeout callbacks on it. -/
def waitForStreamlit.attempt (scheduledAt : Option Nat) (now : Nat) (s : WaitState) : WaitState :=
  { s with probes := s.probes ++ [{ startedAt := now, scheduledAt := scheduledAt, state := .inFlight }] }

/-- The test of line 61 on `res.statusCode` (`none` is a missing status code). -/
def statusReady (statusCode : Option Nat) : Bool :=
  match statusCode with
  | none => false
  | some c => c != 0 && decide (c ≥ 200) && decide (c < 500)

/-- The response callback (lines 59-66). -/
def waitForStreamlit.onResponse (statusCode : Option Nat) (now : Nat) (s : WaitState) : WaitState :=
  if statusReady statusCode then resolve s else waitForStreamlit.retry now s

/-- Records the new state of request `req`. -/
def setReqState (req : Nat) (st : ReqState) : List Probe → List Probe
  | [] => []
  | p :: ps =>
    match req with
    | 0 => { p with state := st } :: ps
    | n + 1 => p :: setReqState n st ps

/-- Marks request `req` in the wait state. -/
def markReq (req : Nat) (st : ReqState) (s : WaitState) : WaitState :=
  { s with probes := setReqState req st s.probes }

/-- The timeout callback (lines 69-72): `req.destroy()`, then `retry()`. -/
def waitForStreamlit.onTimeout (req : Nat) (now : Nat) (s : WaitState) : WaitState :=
  waitForStreamlit.retry now (markReq req .destroyed s)

/-- The body of `waitForStreamlit` after its log line: `start = Date.now()`, a
pending promise, and the first call of `attempt`. -/
def waitForStreamlit.enter (now : Nat) : WaitState :=
  waitForStreamlit.attempt none now
    { start := now, promise := .pending, probes := [], timers := [], retryCalls := 0 }

/-- What the runtime can deliver to one readiness loop. -/
inductive Event where
  | timer
  | response (req : Nat) (statusCode : Option Nat)
  | error (req : Nat)
  | timeout (req : Nat)
  deriving DecidableEq, Repr

/-- State of request `req`, if it was issued. -/
def reqState? (s : WaitState) (req : Nat) : Option ReqState :=
  (s.probes.get? req).map (fun p => p.state)

/-- Whether the runtime can deliver `e` at time `now`: the oldest timer is due; a
response or timeout belongs to a request in flight (the timeout no sooner than
`PROBE_TIMEOUT_MS` after the request was issued); an `error` belongs to a request
in flight or to one destroyed before its response. -/
def enabled (now : Nat) (e : Event) (s : WaitState) : Bool :=
  match e with
  | .timer =>
    match s.timers with
    | [] => false
    | t :: _ => decide (t + POLL_INTERVAL_MS ≤ now)
  | .response req _ => reqState? s req == some .inFlight
  | .error req => reqState? s req == some .inFlight || reqState? s req == some .destroyed
  | .timeout req =>
    match s.probes.get? req with
    | some p => p.state == .inFlight && decide (p.startedAt + PROBE_TIMEOUT_MS ≤ now)
    | none => false

/-- Runs the callback that `e` triggers. -/
def handle (now : Nat) (e : Event) (s : WaitState) : WaitState :=
  match e with
  | .timer =>
    match s.timers with
    | [] => s
    | t :: rest => waitForStreamlit.attempt (some t) now { s with timers := rest }
  | .response req statusCode => waitForStreamlit.onResponse statusCode now (markReq req .responded s)
  | .error req => waitForStreamlit.retry now (markReq req .failed s)
  | .timeout req => waitForStreamlit.onTimeout req now s

/-- Delivery of one event; an event the runtime cannot produce changes nothing. -/
def deliver (now : Nat) (e : Event) (s : WaitState) : WaitState :=
  if enabled now e s then handle now e s else s

/-- Delivery of a list of time-stamped events, in order. -/
def run (tr : List (Nat × Event)) (s : WaitState) : WaitState :=
  tr.foldl (fun acc x => deliver x.1 x.2 acc) s

/-- Number of requests in flight. -/
def inFlight (s : WaitState) : Nat :=
  (s.probes.filter (fun p => p.state == .inFlight)).length

/-! ## The managed process (Node's `child_process`) -/

/-- A process started by `spawn`: the file it runs, whether it has ended (Node has
then dropped its handle), the `killed` flag of the `ChildProcess` object, and the
signals that were delivered to it. -/
structure ChildProcess where
  file : String
  exited : Bool
  killed : Bool
  signals : List String
  deriving DecidableEq, Repr

/-- Signal names that `subprocess.kill` accepts. -/
def knownSignals : List String :=
  ["SIGTERM", "SIGINT", "SIGKILL", "SIGHUP", "SIGQUIT", "SIGUSR1", "SIGUSR2"]

/-- Node's `subprocess.kill(signal)`: an unknown signal name throws; on a process
that has ended nothing is sent and the result is `false`; otherwise the signal is
delivered, `killed` becomes `true` and the result is `true`. -/
def ChildProcess.kill (signal : String) (c : ChildProcess) : Except String (ChildProcess × Bool) :=
  if signal ∈ knownSignals then
    if c.exited then
      pure (c, false)
    else
      pure ({ c with killed := true, signals := c.signals ++ [signal] }, true)
  else
    throw ("TypeError [ERR_UNKNOWN_SIGNAL]: Unknown signal: " ++ signal)

/-! ## Application state -/

/-- A `BrowserWindow` that is open: its number, the URL given to `loadURL`, whether
that load is still under way, and whether the `closed` listener of lines 103-106
is registered on it. -/
structure Window where
  id : Nat
  url : String
  loading : Bool
  closedHandler : Bool
  deriving DecidableEq, Repr

/-- The module state of `main.js` together with what the runtime holds for it:
every process spawned so far (in spawn order), the handle `pythonProcess` (an index
into `children`, `none` for `null`), the open windows (`BrowserWindow.getAllWindows()`),
the number of windows created, the handle `mainWindow` (a window number), one
readiness loop per call of `waitForStreamlit`, the console, and counters for the
calls of `app.quit`, `kill` and `loadURL`. -/
structure App where
  isReady : Bool
  children : List ChildProcess
  pythonProcess : Option Nat
  windows : List Window
  windowsCreated : Nat
  mainWindow : Option Nat
  waits : List WaitState
  log : List LogLine
  quitCalls : Nat
  killCalls : Nat
  loadCalls : Nat
  deriving DecidableEq, Repr

/-- State when the script has been loaded (lines 11-12) and no event has arrived. -/
def App.init : App :=
  { isReady := false, children := [], pythonProcess := none, windows := [],
    windowsCreated := 0, mainWindow := none, waits := [], log := [],
    quitCalls := 0, killCalls := 0, loadCalls := 0 }

/-! ## Starting the executable (lines 35-51) -/

/-- `startPythonExecutable()`: the spawned process is stored in `pythonProcess`. -/
def startPythonExecutable (env : Env) (app : App) : App :=
  let executablePath := resolveExecutablePath env
  { app with
    log := logInfo ("Iniciando ejecutable: " ++ executablePath) app.log
    children := app.children ++ [{ file := executablePath, exited := false, killed := false, signals := [] }]
    pythonProcess := some app.children.length }

/-- How a template literal prints a value that may be `null`. -/
def showNullable {α : Type} [ToString α] : Option α → String
  | none => "null"
  | some a => toString a

/-- The `error` listener of the process (lines 43-46). -/
def startPythonExecutable.onError (error : String) (app : App) : App :=
  { app with
    log := logError "Error al iniciar el ejecutable Python." (some error) app.log
    quitCalls := app.quitCalls + 1 }

/-- The `exit` listener of the process (lines 48-50). -/
def startPythonExecutable.onExit (code : Option Int) (signal : Option String) (app : App) : App :=
  { app with
    log := logInfo ("El ejecutable Python finalizó. code=" ++ showNullable code ++
      " signal=" ++ showNullable signal) app.log }

/-- `waitForStreamlit()`: the log line, then a new readiness loop. -/
def waitForStreamlit (now : Nat) (app : App) : App :=
  { app with
    log := logInfo ("Esperando servidor en " ++ STREAMLIT_URL) app.log
    waits := app.waits ++ [waitForStreamlit.enter now] }

/-! ## Shutdown (lines 113-118) -/

/-- `cleanupAndExit()`. -/
def cleanupAndExit (env : Env) (app : App) : Except String App :=
  match app.pythonProcess with
  | none => pure app
  | some h =>
    match app.children.get? h with
    | none => pure app
    | some c =>
      if !c.killed then do
        let log := logInfo "Cerrando ejecutable Python..." app.log
        let r ← c.kill (if env.platform = "win32" then "SIGTERM" else "SIGTERM")
        pure { app with log := log, children := app.children.set h r.1, killCalls := app.killCalls + 1 }
      else
        pure app

/-! ## Window creation (lines 87-111) -/

/-- The `catch` block of `createWindow` (lines 107-110). -/
def createWindow.onCatch (error : String) (app : App) : App :=
  { app with
    log := logError "No se pudo iniciar la app." (some error) app.log
    quitCalls := app.quitCalls + 1 }

/-- `createWindow()` up to its first `await`: lines 89-90. -/
def createWindow (env : Env) (now : Nat) (app : App) : App :=
  waitForStreamlit now (startPythonExecutable env app)

/-- `createWindow()` from the moment the awaited promise settles: lines 92-100 when
it resolved (a new window, stored in `mainWindow`, and `loadURL`), the `catch` block
when it rejected. -/
def createWindow.afterWait (outcome : Settled) (app : App) : App :=
  match outcome with
  | .pending => app
  | .resolved =>
    { app with
      windows := app.windows ++
        [{ id := app.windowsCreated, url := STREAMLIT_URL, loading := true, closedHandler := false }]
      windowsCreated := app.windowsCreated + 1
      mainWindow := some app.windowsCreated
      loadCalls := app.loadCalls + 1 }
  | .rejected message => createWindow.onCatch message app

/-- Registers the `closed` listener on window `w`. -/
def registerClosed (w : Nat) (ws : List Window) : List Window :=
  ws.map (fun win => if win.id = w then { win with closedHandler := true } else win)

/-- `createWindow()` from the moment `loadURL` settles: lines 101-106 when the page
loaded (the listener goes on whatever `mainWindow` holds then), the `catch` block
when `loadURL` rejected with `error` or `mainWindow` is `null`. -/
def createWindow.afterLoad (error : Option String) (app : App) : App :=
  match error with
  | some e => createWindow.onCatch e app
  | none =>
    let app := { app with log := logInfo "Ventana Electron abierta." app.log }
    match app.mainWindow with
    | some m => { app with windows := registerClosed m app.windows }
    | none => createWindow.onCatch "TypeError: mainWindow is null" app

/-- The `closed` listener (lines 103-106). -/
def createWindow.onClosed (env : Env) (app : App) : Except String App :=
  cleanupAndExit env { app with mainWindow := none }

/-! ## Lifecycle (lines 120-135) -/

/-- What the runtime can deliver to the script. -/
inductive AppEvent where
  | ready
  | activate
  | beforeQuit
  | windowAllClosed
  | windowClosed (w : Nat)
  | childError (p : Nat) (error : String)
  | childExit (p : Nat) (code : Option Int) (signal : Option String)
  | probe (k : Nat) (e : Event)
  | loaded (w : Nat) (error : Option String)
  deriving DecidableEq, Repr

/-- Delivery of one event at time `now`.  `ready` arrives once; events that name a
process, a readiness loop or a window that does not exist (or a process that has
already ended, or a window that is not loading) change nothing.  An event of a
readiness loop whose promise settles resumes the `createWindow` that awaits it. -/
def step (env : Env) (now : Nat) (ev : AppEvent) (app : App) : Except String App :=
  match ev with
  | .ready =>
    if app.isReady then pure app
    else pure (createWindow env now { app with isReady := true })
  | .activate =>
    if app.windows.length = 0 then pure (createWindow env now app) else pure app
  | .beforeQuit => cleanupAndExit env app
  | .windowAllClosed => do
    let app ← cleanupAndExit env app
    if env.platform ≠ "darwin" then
      pure { app with quitCalls := app.quitCalls + 1 }
    else
      pure app
  | .windowClosed w =>
    match app.windows.find? (fun win => win.id == w) with
    | none => pure app
    | some win =>
      let app := { app with windows := app.windows.filter (fun x => x.id != w) }
      if win.closedHandler then createWindow.onClosed env app else pure app
  | .childError p error =>
    if p < app.children.length then pure (startPythonExecutable.onError error app) else pure app
  | .childExit p code signal =>
    match app.children.get? p with
    | none => pure app
    | some c =>
      if c.exited then pure app
      else
        pure (startPythonExecutable.onExit code signal
          { app with children := app.children.set p { c with exited := true } })
  | .probe k e =>
    match app.waits.get? k with
    | none => pure app
    | some w =>
      let w' := deliver now e w
      let app := { app with waits := app.waits.set k w' }
      if w.promise = .pending then pure (createWindow.afterWait w'.promise app) else pure app
  | .loaded w error =>
    match app.windows.find? (fun win => win.id == w) with
    | none => pure app
    | some win =>
      if win.loading then
        let ws := app.windows.map (fun x => if x.id = w then { x with loading := false } else x)
        pure (createWindow.afterLoad error { app with windows := ws })
      else pure app

/-- Delivery of a list of time-stamped events, in order; a throw ends the run. -/
def runApp (env : Env) (tr : List (Nat × AppEvent)) (app : App) : Except String App :=
  match tr with
  | [] => pure app
  | x :: rest =>
    match step env x.1 x.2 app with
    | .ok app' => runApp env rest app'
    | .error e => .error e

/-- The spawned processes that still run and were never signalled, by spawn number. -/
def runningUnsignalled (app : App) : List Nat :=
  (List.range app.children.length).filter (fun i =>
    match app.children.get? i with
    | some c => !c.exited && c.signals.isEmpty
    | none => false)

/-- A development checkout on Linux in which the built executable is present. -/
def devEnv : Env :=
  { platform := "linux", isPackaged := false, resourcesPath := "/opt/app/resources",
    dirname := "/home/dev/app", existsSync := fun _ => true,
    join := fun parts => String.intercalate "/" parts }

/-! ## Predicates and sample runs used in the statements below -/

/-- The schedule of the scenario of the specification: request `i` is refused at
`500 * i` ms and the timer set then fires 500 ms later, for `i < n`. -/
def spaced (n : Nat) : List (Nat × Event) :=
  (List.range n).flatMap (fun i => [(POLL_INTERVAL_MS * i, Event.error i), (POLL_INTERVAL_MS * (i + 1), Event.timer)])

/-- Events of readiness loop `k`, as events of the application. -/
def probeEvents (k : Nat) (tr : List (Nat × Event)) : List (Nat × AppEvent) :=
  tr.map (fun x => (x.1, AppEvent.probe k x.2))

/-- Agreement of two application states on everything except the process records,
the console and the number of `kill` calls. -/
def SameButProcess (a b : App) : Prop :=
  a.isReady = b.isReady ∧ a.children.length = b.children.length ∧
  a.pythonProcess = b.pythonProcess ∧ a.windows = b.windows ∧
  a.windowsCreated = b.windowsCreated ∧ a.mainWindow = b.mainWindow ∧
  a.waits = b.waits ∧ a.quitCalls = b.quitCalls ∧ a.loadCalls = b.loadCalls

/-- The first request hits its 2-second timeout; the callback destroys it and calls
`retry`, and the `error` event that the destroyed request emits calls `retry` again;
both timers then fire. -/
def doubleRetryTrace : List (Nat × Event) :=
  [(2000, .timeout 0), (2000, .error 0), (2500, .timer), (2500, .timer)]

/-- After `doubleRetryTrace`: the second request answers 200, the third is refused,
and the timer set by that refusal fires. -/
def lateProbeTrace : List (Nat × Event) :=
  doubleRetryTrace ++ [(2510, .response 1 (some 200)), (2600, .error 2), (3100, .timer)]

/-- A development checkout on macOS, where Electron emits `activate`. -/
def macEnv : Env :=
  { platform := "darwin", isPackaged := false, resourcesPath := "/Applications/app/Resources",
    dirname := "/Users/dev/app", existsSync := fun _ => true,
    join := fun parts => String.intercalate "/" parts }

/-- The process that `devEnv` starts, as `spawn` returns it. -/
def devProcess : ChildProcess :=
  { file := "/home/dev/app/dist/ElectroGalindez", exited := false, killed := false, signals := [] }

/-- The application state of a run, `App.init` if the run threw. -/
def stateAfter (env : Env) (tr : List (Nat × AppEvent)) : App :=
  match runApp env tr App.init with
  | .ok app => app
  | .error _ => App.init

/-- A started application whose process ended by itself (exit code 1) during the wait. -/
def exitedApp : App :=
  stateAfter devEnv [(0, .ready), (1200, .childExit 0 (some 1) none)]

/-- An application with its window open: the first request was refused, the second
answered 200, and the page loaded. -/
def openApp : App :=
  stateAfter devEnv [(0, .ready), (3, .probe 0 (.error 0)), (503, .probe 0 .timer),
    (520, .probe 0 (.response 1 (some 200))), (900, .loaded 0 none)]

/-- Whether the runtime can produce every event of the list, each at its turn. -/
def accepted : List (Nat × Event) → WaitState → Bool
  | [], _ => true
  | x :: rest, s => enabled x.1 x.2 s && accepted rest (deliver x.1 x.2 s)

/-- Number of probes of a list that are in flight. -/
def countInFlight (ps : List Probe) : Nat :=
  (ps.filter (fun p => p.state == .inFlight)).length

/-- Shape of the loop in runs without per-attempt timeouts: no request is destroyed;
while the wait is pending exactly one request is in flight or one timer is pending,
and once it is settled there is neither; every request but the first comes from one
call of `retry`. -/
def Sequential (s : WaitState) : Prop :=
  (∀ p ∈ s.probes, p.state ≠ .destroyed) ∧
  inFlight s + s.timers.length = (if s.promise = .pending then 1 else 0) ∧
  s.probes.length + s.timers.length +
    (match s.promise with
     | .rejected _ => 1
     | _ => 0) = s.retryCalls + 1

/-- No event of the list is a per-attempt timeout. -/
def NoTimeouts (tr : List (Nat × Event)) : Prop :=
  ∀ x ∈ tr, ∀ req, x.2 ≠ .timeout req

/-! ## Auxiliary facts -/

deriving instance DecidableEq for Except

set_option maxRecDepth 100000

theorem retry_promise (now : Nat) (s : WaitState) (hp : s.promise = .pending) :
    (waitForStreamlit.retry now s).promise =
      if now - s.start < MAX_WAIT_MS then .pending else .rejected timeoutMessage := by
  unfold waitForStreamlit.retry reject
  by_cases h : now - s.start < MAX_WAIT_MS
  · have h' : ¬ (now - s.start ≥ MAX_WAIT_MS) := by omega
    simp [h, h', hp]
  · have h' : now - s.start ≥ MAX_WAIT_MS := by omega
    simp [h, h', hp]

theorem retry_timers (now : Nat) (s : WaitState) :
    (waitForStreamlit.retry now s).timers =
      if now - s.start < MAX_WAIT_MS then s.timers ++ [now] else s.timers := by
  unfold waitForStreamlit.retry reject
  by_cases h : now - s.start < MAX_WAIT_MS
  · have h' : ¬ (now - s.start ≥ MAX_WAIT_MS) := by omega
    simp [h, h']
  · have h' : now - s.start ≥ MAX_WAIT_MS := by omega
    simp only [h, h', if_true, if_false]
    split <;> rfl

theorem retry_retryCalls (now : Nat) (s : WaitState) :
    (waitForStreamlit.retry now s).retryCalls = s.retryCalls + 1 := by
  unfold waitForStreamlit.retry reject
  dsimp only
  split
  · split <;> rfl
  · rfl

theorem retry_probes (now : Nat) (s : WaitState) :
    (waitForStreamlit.retry now s).probes = s.probes := by
  unfold waitForStreamlit.retry reject
  dsimp only
  split
  · split <;> rfl
  · rfl

theorem set_get?_self {α : Type} (xs : List α) (i : Nat) (x : α) (h : xs.get? i = some x) :
    xs.set i x = xs := by
  induction xs generalizing i with
  | nil => rfl
  | cons y ys ih =>
    cases i with
    | zero =>
      simp at h
      simp [h]
    | succ n =>
      simp at h
      simp [ih n (by simpa using h)]

theorem kill_sigterm_alive (c : ChildProcess) (h : c.exited = false) :
    c.kill "SIGTERM" = .ok ({ c with killed := true, signals := c.signals ++ ["SIGTERM"] }, true) := by
  have hk : "SIGTERM" ∈ knownSignals := by decide
  simp [ChildProcess.kill, hk, h, pure, Except.pure]

theorem kill_sigterm_exited (c : ChildProcess) (h : c.exited = true) :
    c.kill "SIGTERM" = .ok (c, false) := by
  have hk : "SIGTERM" ∈ knownSignals := by decide
  simp [ChildProcess.kill, hk, h, pure, Except.pure]

theorem cleanupAndExit_alive (env : Env) (app : App) (h : Nat) (c : ChildProcess)
    (hh : app.pythonProcess = some h) (hc : app.children.get? h = some c)
    (halive : c.exited = false) (hk : c.killed = false) :
    cleanupAndExit env app = .ok { app with
      log := logInfo "Cerrando ejecutable Python..." app.log
      children := app.children.set h { c with killed := true, signals := c.signals ++ ["SIGTERM"] }
      killCalls := app.killCalls + 1 } := by
  unfold cleanupAndExit
  simp only [hh, hc, hk, ite_self, kill_sigterm_alive c halive]
  rfl

theorem cleanupAndExit_killed (env : Env) (app : App) (h : Nat) (c : ChildProcess)
    (hh : app.pythonProcess = some h) (hc : app.children.get? h = some c)
    (hk : c.killed = true) :
    cleanupAndExit env app = .ok app := by
  unfold cleanupAndExit
  simp only [hh, hc, hk]
  rfl

theorem cleanupAndExit_never_started (env : Env) (app : App) (hh : app.pythonProcess = none) :
    cleanupAndExit env app = .ok app := by
  unfold cleanupAndExit
  simp only [hh]
  rfl

theorem cleanupAndExit_exited (env : Env) (app : App) (h : Nat) (c : ChildProcess)
    (hh : app.pythonProcess = some h) (hc : app.children.get? h = some c)
    (hex : c.exited = true) (hk : c.killed = false) :
    cleanupAndExit env app = .ok { app with
      log := logInfo "Cerrando ejecutable Python..." app.log
      killCalls := app.killCalls + 1 } := by
  unfold cleanupAndExit
  simp only [hh, hc, hk, ite_self, kill_sigterm_exited c hex]
  simp [bind, Except.bind, pure, Except.pure, set_get?_self _ _ _ hc]

theorem run_append (xs ys : List (Nat × Event)) (s : WaitState) :
    run (xs ++ ys) s = run ys (run xs s) := by
  simp [run, List.foldl_append]

theorem resolve_timers (s : WaitState) : (resolve s).timers = s.timers := by
  unfold resolve
  split <;> rfl

theorem resolve_probes (s : WaitState) : (resolve s).probes = s.probes := by
  unfold resolve
  split <;> rfl

theorem SameButProcess.trans {a b c : App} (h : SameButProcess a b) (g : SameButProcess b c) :
    SameButProcess a c := by
  rcases h with ⟨h1, h2, h3, h4, h5, h6, h7, h8, h9⟩
  rcases g with ⟨g1, g2, g3, g4, g5, g6, g7, g8, g9⟩
  exact ⟨h1.trans g1, h2.trans g2, h3.trans g3, h4.trans g4, h5.trans g5, h6.trans g6,
    h7.trans g7, h8.trans g8, h9.trans g9⟩

theorem kill_sigterm_ok (c : ChildProcess) : ∃ r, c.kill "SIGTERM" = .ok r := by
  cases h : c.exited with
  | true => exact ⟨_, kill_sigterm_exited c h⟩
  | false => exact ⟨_, kill_sigterm_alive c h⟩

theorem setReqState_length (req : Nat) (st : ReqState) (ps : List Probe) :
    (setReqState req st ps).length = ps.length := by
  induction ps generalizing req with
  | nil => simp [setReqState]
  | cons a as ih =>
    cases req with
    | zero => simp [setReqState]
    | succ n => simp [setReqState, ih]

theorem setReqState_state (req : Nat) (st : ReqState) (ps : List Probe) (p : Probe)
    (hp : p ∈ setReqState req st ps) : p.state = st ∨ p ∈ ps := by
  induction ps generalizing req with
  | nil => simp [setReqState] at hp
  | cons a as ih =>
    cases req with
    | zero =>
      simp only [setReqState, List.mem_cons] at hp
      rcases hp with rfl | hp
      · exact Or.inl rfl
      · exact Or.inr (by simp [hp])
    | succ n =>
      simp only [setReqState, List.mem_cons] at hp
      rcases hp with rfl | hp
      · exact Or.inr (by simp)
      · rcases ih n hp with h | h
        · exact Or.inl h
        · exact Or.inr (by simp [h])

theorem countInFlight_setReqState (req : Nat) (st : ReqState) (ps : List Probe)
    (h : (ps.get? req).map (fun p => p.state) = some .inFlight) (hst : st ≠ .inFlight) :
    countInFlight (setReqState req st ps) + 1 = countInFlight ps := by
  induction ps generalizing req with
  | nil => simp at h
  | cons a as ih =>
    cases req with
    | zero =>
      simp only [List.get?_cons_zero, Option.map_some', Option.some.injEq] at h
      simp [setReqState, countInFlight, List.filter_cons, h, hst]
    | succ n =>
      simp only [List.get?_cons_succ] at h
      have := ih n h
      simp only [setReqState, countInFlight, List.filter_cons] at this ⊢
      split
      · simp only [List.length_cons]; omega
      · exact this

theorem countInFlight_zero (ps : List Probe) (h : countInFlight ps = 0) (req : Nat) :
    (ps.get? req).map (fun p => p.state) ≠ some .inFlight := by
  intro hreq
  cases hp : ps.get? req with
  | none =>
    rw [hp] at hreq
    cases hreq
  | some p =>
    rw [hp] at hreq
    simp only [Option.map_some', Option.some.injEq] at hreq
    have hmem : p ∈ ps := List.get?_mem hp
    have : p ∈ ps.filter (fun p => p.state == .inFlight) := by
      simp [List.mem_filter, hmem, hreq]
    have hl : (ps.filter (fun p => p.state == .inFlight)).length = 0 := h
    rw [List.length_eq_zero] at hl
    rw [hl] at this
    simp at this

theorem enabled_reqState (now : Nat) (e : Event) (s : WaitState) (h : enabled now e s = true) :
    (∀ req c, e = .response req c → reqState? s req = some .inFlight) ∧
    (∀ req, e = .timeout req → reqState? s req = some .inFlight) ∧
    (∀ req, e = .error req →
      reqState? s req = some .inFlight ∨ reqState? s req = some .destroyed) := by
  refine ⟨?_, ?_, ?_⟩
  · intro req c he
    subst he
    simpa [enabled] using h
  · intro req he
    subst he
    have h2 : (match s.probes.get? req with
        | some p => p.state == .inFlight && decide (p.startedAt + PROBE_TIMEOUT_MS ≤ now)
        | none => false) = true := h
    unfold reqState?
    cases hp : s.probes.get? req with
    | none =>
      rw [hp] at h2
      cases h2
    | some p =>
      rw [hp] at h2
      simp only [Bool.and_eq_true, beq_iff_eq] at h2
      simp [h2.1]
  · intro req he
    subst he
    simpa [enabled] using h

theorem enter_sequential (start : Nat) : Sequential (waitForStreamlit.enter start) := by
  refine ⟨?_, ?_, ?_⟩
  · intro p hp
    simp [waitForStreamlit.enter, waitForStreamlit.attempt] at hp
    rw [hp]
    simp
  · rfl
  · rfl

/-- The common step of the failing outcomes other than a timeout: the request leaves
flight and `retry` runs. -/
theorem retry_sequential (now req : Nat) (st : ReqState) (s : WaitState)
    (h : Sequential s) (hreq : reqState? s req = some .inFlight)
    (hst : st ≠ .inFlight) (hst2 : st ≠ .destroyed) :
    Sequential (waitForStreamlit.retry now (markReq req st s)) := by
  rcases h with ⟨h1, h2, h3⟩
  have hc := countInFlight_setReqState req st s.probes hreq hst
  have hin : inFlight s = countInFlight s.probes := rfl
  have hpend : s.promise = .pending := by
    by_contra hne
    rw [if_neg hne] at h2
    omega
  rw [if_pos hpend] at h2
  rw [hpend] at h3
  have ht : s.timers = [] := by
    rw [← List.length_eq_zero]; omega
  have hcz : countInFlight (setReqState req st s.probes) = 0 := by omega
  refine ⟨?_, ?_, ?_⟩
  · intro p hp
    rw [retry_probes] at hp
    rcases setReqState_state req st s.probes p hp with hps | hps
    · rw [hps]; exact hst2
    · exact h1 p hps
  · have hi : inFlight (waitForStreamlit.retry now (markReq req st s))
        = countInFlight (setReqState req st s.probes) := by
      unfold inFlight
      rw [retry_probes]
      rfl
    rw [hi, hcz, retry_timers, retry_promise now _ (by simpa [markReq] using hpend)]
    simp only [markReq, ht]
    split <;> simp
  · rw [retry_probes, retry_timers, retry_retryCalls,
      retry_promise now _ (by simpa [markReq] using hpend)]
    simp only [markReq, ht, setReqState_length] at h3 ⊢
    split <;> simp at h3 ⊢ <;> omega

theorem deliver_sequential (now : Nat) (e : Event) (s : WaitState)
    (hne : ∀ req, e ≠ .timeout req) (h : Sequential s) : Sequential (deliver now e s) := by
  unfold deliver
  by_cases hen : enabled now e s = true
  · rw [if_pos hen]
    have hreq := enabled_reqState now e s hen
    have h' := h
    rcases h with ⟨h1, h2, h3⟩
    cases e with
    | timer =>
      cases ht : s.timers with
      | nil => simp [enabled, ht] at hen
      | cons t rest =>
        have hpend : s.promise = .pending := by
          by_contra hp
          rw [if_neg hp, ht] at h2
          simp at h2
        rw [if_pos hpend, ht] at h2
        simp only [List.length_cons] at h2
        have hrest : rest = [] := by
          rw [← List.length_eq_zero]; omega
        have hz : inFlight s = 0 := by omega
        rw [hpend, ht] at h3
        simp only [handle, ht]
        refine ⟨?_, ?_, ?_⟩
        · intro p hp
          simp only [waitForStreamlit.attempt, List.mem_append, List.mem_singleton] at hp
          rcases hp with hp | rfl
          · exact h1 p hp
          · simp
        · have hz' : (s.probes.filter (fun p => p.state == .inFlight)).length = 0 := hz
          simp [inFlight, waitForStreamlit.attempt, List.filter_append, hz', hpend, hrest]
        · simp [waitForStreamlit.attempt, hpend, hrest] at h3 ⊢
          omega
    | response req c =>
      have hr := hreq.1 req c rfl
      cases hc : statusReady c with
      | false =>
        simp only [handle, waitForStreamlit.onResponse, hc, if_true, Bool.false_eq_true, if_false]
        exact retry_sequential now req .responded s h' hr (by simp) (by simp)
      | true =>
        have hcnt := countInFlight_setReqState req .responded s.probes hr (by simp)
        have hin : inFlight s = countInFlight s.probes := rfl
        have hpend : s.promise = .pending := by
          by_contra hp
          rw [if_neg hp] at h2
          omega
        rw [if_pos hpend] at h2
        rw [hpend] at h3
        have ht : s.timers = [] := by
          rw [← List.length_eq_zero]; omega
        have hcz : countInFlight (setReqState req .responded s.probes) = 0 := by omega
        simp only [handle, waitForStreamlit.onResponse, hc, if_true, Bool.false_eq_true, if_false]
        refine ⟨?_, ?_, ?_⟩
        · intro p hp
          rw [resolve_probes] at hp
          rcases setReqState_state req .responded s.probes p hp with hps | hps
          · rw [hps]; simp
          · exact h1 p hps
        · have hi : inFlight (resolve (markReq req .responded s))
              = countInFlight (setReqState req .responded s.probes) := by
            unfold inFlight
            rw [resolve_probes]
            rfl
          rw [hi, hcz, resolve_timers]
          simp [resolve, markReq, hpend, ht]
        · rw [resolve_probes, resolve_timers]
          simp [resolve, markReq, hpend, ht, setReqState_length] at h3 ⊢
          omega
    | error req =>
      rcases hreq.2.2 req rfl with hr | hr
      · exact retry_sequential now req .failed s h' hr (by simp) (by simp)
      · exfalso
        unfold reqState? at hr
        cases hp : s.probes.get? req with
        | none =>
          rw [hp] at hr
          cases hr
        | some p =>
          rw [hp] at hr
          simp only [Option.map_some', Option.some.injEq] at hr
          exact h1 p (List.get?_mem hp) hr
    | timeout req => exact absurd rfl (hne req)
  · rw [if_neg hen]
    exact h

theorem run_sequential (tr : List (Nat × Event)) (s : WaitState)
    (hno : NoTimeouts tr) (h : Sequential s) : Sequential (run tr s) := by
  induction tr generalizing s with
  | nil => exact h
  | cons x rest ih =>
    apply ih
    · intro y hy
      exact hno y (List.mem_cons_of_mem _ hy)
    · exact deliver_sequential x.1 x.2 s (hno x (List.mem_cons_self _ _)) h

/-- Once the wait of a sequential loop is settled, no event is deliverable. -/
theorem settled_is_final (s : WaitState) (h : Sequential s) (hp : s.promise ≠ .pending)
    (tr : List (Nat × Event)) : run tr s = s := by
  rcases h with ⟨h1, h2, _⟩
  rw [if_neg hp] at h2
  have hz : countInFlight s.probes = 0 := by
    have : inFlight s = countInFlight s.probes := rfl
    omega
  have ht : s.timers = [] := by
    rw [← List.length_eq_zero]; omega
  have hdis : ∀ now e, deliver now e s = s := by
    intro now e
    unfold deliver
    by_cases hen : enabled now e s = true
    · exfalso
      have hreq := enabled_reqState now e s hen
      cases e with
      | timer => simp [enabled, ht] at hen
      | response req c => exact countInFlight_zero s.probes hz req (hreq.1 req c rfl)
      | timeout req => exact countInFlight_zero s.probes hz req (hreq.2.1 req rfl)
      | error req =>
        rcases hreq.2.2 req rfl with hr | hr
        · exact countInFlight_zero s.probes hz req hr
        · unfold reqState? at hr
          cases hq : s.probes.get? req with
          | none =>
            rw [hq] at hr
            cases hr
          | some p =>
            rw [hq] at hr
            simp only [Option.map_some', Option.some.injEq] at hr
            exact h1 p (List.get?_mem hq) hr
    · rw [if_neg hen]
  induction tr with
  | nil => rfl
  | cons x rest ih =>
    have : run (x :: rest) s = run rest (deliver x.1 x.2 s) := rfl
    rw [this, hdis, ih]

/-! ## Path resolution -/

/-- C9: `resolveExecutablePath` as a function of the platform, the packaged flag, the
resources directory, the development directory and the file-exists test: the file
name is `ElectroGalindez.exe` exactly on `win32` and `ElectroGalindez` otherwise; the
result is the `dist` entry of the resources directory when the app is packaged and
that file exists, and the `dist` entry of the development directory in every other
case. -/
theorem resolveExecutablePath_spec (env : Env) :
    (executableName env.platform = "ElectroGalindez.exe" ↔ env.platform = "win32") ∧
    (env.platform = "win32" ∨ executableName env.platform = "ElectroGalindez") ∧
    resolveExecutablePath env =
      if env.isPackaged = true ∧
          env.existsSync (env.join [env.resourcesPath, "dist", executableName env.platform]) = true
      then env.join [env.resourcesPath, "dist", executableName env.platform]
      else env.join [env.dirname, "dist", executableName env.platform] := by
  refine ⟨?_, ?_, ?_⟩
  · unfold executableName
    by_cases h : env.platform = "win32"
    · simp [h]
    · simp [h]
  · unfold executableName
    by_cases h : env.platform = "win32"
    · exact Or.inl h
    · right; simp [h]
  · unfold resolveExecutablePath
    cases hp : env.isPackaged <;> simp

/-! ## The readiness loop -/

/-- In runs without per-attempt timeouts the loop is strictly sequential: at most one
request is in flight or one timer pending; when the wait has resolved, one request
was issued per failed one plus the qualifying one, and nothing happens afterwards. -/
theorem sequential_without_timeouts (start : Nat) (tr : List (Nat × Event))
    (hno : NoTimeouts tr) :
    inFlight (run tr (waitForStreamlit.enter start))
      + (run tr (waitForStreamlit.enter start)).timers.length ≤ 1 ∧
    ((run tr (waitForStreamlit.enter start)).promise = .resolved →
      (run tr (waitForStreamlit.enter start)).probes.length
        = (run tr (waitForStreamlit.enter start)).retryCalls + 1 ∧
      ∀ post, run (tr ++ post) (waitForStreamlit.enter start)
        = run tr (waitForStreamlit.enter start)) := by
  have hs := run_sequential tr _ hno (enter_sequential start)
  constructor
  · have h2 := hs.2.1
    split at h2 <;> omega
  · intro hres
    constructor
    · have h3 := hs.2.2
      have h2 := hs.2.1
      rw [hres] at h3 h2
      rw [if_neg (by simp)] at h2
      dsimp only at h3
      omega
    · intro post
      rw [run_append]
      exact settled_is_final _ hs (by rw [hres]; simp) post

/-- The scenario of the specification: requests refused at 500 ms spacing from loop
entry, then the request started at 29500 ms answers 200.  The wait resolves, 60
requests were issued, nothing is pending, and `createWindow` opens the window. -/
theorem scenario_ready_at_29500 :
    accepted (spaced 59 ++ [(29500, .response 59 (some 200))]) (waitForStreamlit.enter 0) = true ∧
    (run (spaced 59 ++ [(29500, .response 59 (some 200))]) (waitForStreamlit.enter 0)).promise
      = .resolved ∧
    (run (spaced 59 ++ [(29500, .response 59 (some 200))]) (waitForStreamlit.enter 0)).probes.length
      = 60 ∧
    (run (spaced 59 ++ [(29500, .response 59 (some 200))]) (waitForStreamlit.enter 0)).timers = [] ∧
    (stateAfter devEnv ((0, .ready) ::
      probeEvents 0 (spaced 59 ++ [(29500, .response 59 (some 200))]))).windows
      = [{ id := 0, url := STREAMLIT_URL, loading := true, closedHandler := false }] ∧
    (stateAfter devEnv ((0, .ready) ::
      probeEvents 0 (spaced 59 ++ [(29500, .response 59 (some 200))]))).quitCalls = 0 := by
  decide

/-- C6, evaluated where it fails: the first request times out at 2000 ms; the timeout
callback and the `error` event of the destroyed request each call `retry`, so one
request has caused two calls of `retry` and two pending timers, and once both fire
two requests are in flight together. -/
theorem timeout_calls_retry_twice :
    accepted doubleRetryTrace (waitForStreamlit.enter 0) = true ∧
    (run (doubleRetryTrace.take 2) (waitForStreamlit.enter 0)).probes.length = 1 ∧
    (run (doubleRetryTrace.take 2) (waitForStreamlit.enter 0)).retryCalls = 2 ∧
    (run (doubleRetryTrace.take 2) (waitForStreamlit.enter 0)).timers = [2000, 2000] ∧
    inFlight (run doubleRetryTrace (waitForStreamlit.enter 0)) = 2 := by
  decide

/-- C2, evaluated where it fails: the first request (k = 1) times out at 2000 ms and
the second answers 200 at 2510 ms.  The wait resolves there, but three requests
have been issued by then instead of two, and after the third is refused a fourth
is started at 3100 ms, after the qualifying response. -/
theorem timeout_then_ready_issues_extra_probes :
    accepted lateProbeTrace (waitForStreamlit.enter 0) = true ∧
    (run (lateProbeTrace.take 5) (waitForStreamlit.enter 0)).promise = .resolved ∧
    (run (lateProbeTrace.take 5) (waitForStreamlit.enter 0)).probes.length = 3 ∧
    (run lateProbeTrace (waitForStreamlit.enter 0)).promise = .resolved ∧
    (run lateProbeTrace (waitForStreamlit.enter 0)).probes.map (fun p => p.startedAt)
      = [0, 2500, 2500, 3100] := by
  decide

/-- C4: with a managed process that is alive and has not been signalled,
`cleanupAndExit` called twice in a row calls `kill` once and delivers one `SIGTERM`;
the second call does not throw and changes nothing, since the first one left
`killed` set.  The same holds for the `closed` listener of the window followed by
`before-quit`. -/
theorem cleanupAndExit_twice (env : Env) (app : App) (h : Nat) (c : ChildProcess)
    (hh : app.pythonProcess = some h) (hc : app.children.get? h = some c)
    (halive : c.exited = false) (hk : c.killed = false) :
    (∃ app1, cleanupAndExit env app = .ok app1 ∧ cleanupAndExit env app1 = .ok app1 ∧
      app1.killCalls = app.killCalls + 1 ∧
      app1.children.get? h = some { c with killed := true, signals := c.signals ++ ["SIGTERM"] }) ∧
    (∀ w win t1 t2, app.windows.find? (fun x => x.id == w) = some win →
      win.closedHandler = true →
      ∃ app1, step env t1 (.windowClosed w) app = .ok app1 ∧
        step env t2 .beforeQuit app1 = .ok app1 ∧
        app1.killCalls = app.killCalls + 1 ∧
        app1.children.get? h
          = some { c with killed := true, signals := c.signals ++ ["SIGTERM"] }) := by
  have hlt : h < app.children.length := by
    rcases List.get?_eq_some.1 hc with ⟨hlt, _⟩
    exact hlt
  constructor
  · refine ⟨_, cleanupAndExit_alive env app h c hh hc halive hk, ?_, rfl, ?_⟩
    · apply cleanupAndExit_killed env _ h { c with killed := true, signals := c.signals ++ ["SIGTERM"] }
      · exact hh
      · simp [hlt]
      · rfl
    · simp [hlt]
  · intro w win t1 t2 hf hcl
    have h1 : step env t1 (.windowClosed w) app
        = cleanupAndExit env
            { app with windows := app.windows.filter (fun x => x.id != w), mainWindow := none } := by
      simp only [step, hf, hcl]
      rfl
    refine ⟨_, h1.trans (cleanupAndExit_alive env _ h c hh hc halive hk), ?_, rfl, ?_⟩
    · apply cleanupAndExit_killed env _ h { c with killed := true, signals := c.signals ++ ["SIGTERM"] }
      · exact hh
      · simp [hlt]
      · rfl
    · simp [hlt]

/-- Witness of C4 on the application with its window open. -/
theorem cleanupAndExit_twice_witness :
    ∃ app1, cleanupAndExit devEnv openApp = .ok app1 ∧ cleanupAndExit devEnv app1 = .ok app1 ∧
      app1.killCalls = openApp.killCalls + 1 ∧
      app1.children.get? 0
        = some { devProcess with killed := true, signals := devProcess.signals ++ ["SIGTERM"] } :=
  (cleanupAndExit_twice devEnv openApp 0 devProcess (by decide) (by decide) rfl rfl).1

/-- C5 as stated fails: after the process has ended by itself (never signalled),
`cleanupAndExit` is not a no-op: it calls `kill` once and writes one more console
line, although no signal is delivered. -/
theorem cleanupAndExit_after_exit_calls_kill :
    exitedApp.pythonProcess = some 0 ∧
    exitedApp.children = [{ devProcess with exited := true }] ∧
    exitedApp.killCalls = 0 ∧
    cleanupAndExit devEnv exitedApp ≠ .ok exitedApp ∧
    (cleanupAndExit devEnv exitedApp).map App.killCalls = .ok 1 ∧
    (cleanupAndExit devEnv exitedApp).map (fun a => a.log.length)
      = .ok (exitedApp.log.length + 1) ∧
    (cleanupAndExit devEnv exitedApp).map App.children = .ok exitedApp.children := by
  decide

/-- C5, amended: `cleanupAndExit` changes nothing when no process was ever started
(`pythonProcess` is `null`); when the process has ended by itself and was never
signalled, it writes its console line and calls `kill` once, and that call delivers
no signal and leaves every process record, the handle and all other state as they
were. -/
theorem cleanupAndExit_noop_cases (env : Env) (app : App) :
    (app.pythonProcess = none → cleanupAndExit env app = .ok app) ∧
    (∀ h c, app.pythonProcess = some h → app.children.get? h = some c →
      c.exited = true → c.killed = false →
      cleanupAndExit env app = .ok { app with
        log := logInfo "Cerrando ejecutable Python..." app.log
        killCalls := app.killCalls + 1 }) :=
  ⟨cleanupAndExit_never_started env app,
    fun h c hh hc hex hk => cleanupAndExit_exited env app h c hh hc hex hk⟩

/-- Witness of the amended C5: before any event, and after the process ended by itself. -/
theorem cleanupAndExit_noop_cases_witness :
    cleanupAndExit devEnv App.init = .ok App.init ∧
    cleanupAndExit devEnv exitedApp = .ok { exitedApp with
      log := logInfo "Cerrando ejecutable Python..." exitedApp.log
      killCalls := exitedApp.killCalls + 1 } :=
  ⟨(cleanupAndExit_noop_cases devEnv App.init).1 rfl,
    (cleanupAndExit_noop_cases devEnv exitedApp).2 0 { devProcess with exited := true }
      (by decide) (by decide) rfl rfl⟩

/-! ## Lifecycle -/

/-- C10, evaluated where it fails (macOS): `ready` starts a process and, while its
wait is still pending and no window exists, `activate` starts a second one and
overwrites `pythonProcess`.  Both processes run unsignalled, the handle holds only the second,
and after `before-quit` the first still runs and has never been signalled. -/
theorem activate_orphans_process :
    (runApp macEnv [(0, .ready), (10, .activate)] App.init).map runningUnsignalled
      = .ok [0, 1] ∧
    (runApp macEnv [(0, .ready), (10, .activate)] App.init).map App.pythonProcess
      = .ok (some 1) ∧
    (runApp macEnv [(0, .ready), (10, .activate), (20, .beforeQuit)] App.init).map
      runningUnsignalled = .ok [0] ∧
    (runApp macEnv [(0, .ready), (10, .activate), (20, .beforeQuit)] App.init).map App.killCalls
      = .ok 1 := by
  decide

end ElectroGalindez
